import Mathlib

/-!
Formal model of the collaborative-filtering core of the movie-lens
recommender (`src/movie-logic.js`, duplicated in the express variant).

JavaScript numbers are modelled as real numbers, `Math.sqrt` as
`Real.sqrt`, and `x.toFixed(1)` as rounding (half-up) to one decimal
read back as a number.  Object keys of the ratings table are decimal
digit strings of the numeric user ids; they are represented by the
corresponding natural number, and the runtime type distinction that a
JS value carries (string key versus number) is kept in `JsId`, because
`findNearestNeighbors` compares a string key with `!==` against the id
value it is given.  `Array.prototype.sort` (stable since ES2019) with
comparator `(a, b) => key(b) - key(a)` is modelled by a stable
insertion sort into non-increasing key order.
-/

namespace MovieRec

/-- One `{ movieId, rating }` record of a user's rating vector. -/
structure MovieRating where
  movieId : Nat
  rating : ℝ

/-- One `{ title, genres }` catalog entry of the `movies` map. -/
structure ItemMeta where
  title : String
  genres : String

/-- A `{ userId, similarity, ratings }` record pushed by `findNearestNeighbors`.
The JS record stores the string object key; it is represented by its numeric value. -/
structure NeighborRecord where
  userId : Nat
  similarity : ℝ
  ratings : List MovieRating

/-- A `{ movieId, title, genres, predictedRating }` record of the output list. -/
structure PredictedMovie where
  movieId : Nat
  title : String
  genres : String
  predictedRating : ℝ

/-- A JS id value: either the decimal-string form of a numeric id (as object
keys are), or the number itself (as `main` passes `newUserId`). -/
inductive JsId where
  | str : Nat → JsId
  | num : Nat → JsId

/-- JS strict inequality `user2Id !== userId` where `user2Id` is a string
object key: between two strings it compares the values, between a string and
a number it is always `true` (different runtime types). -/
def jsKeyStrictNeq (key : Nat) : JsId → Bool
  | JsId.str m => key != m
  | JsId.num _ => true

/-- Template-literal coercion `` `${userId}` ``: a string key stays itself and
a number is printed in decimal, so both reach the same numeric key. -/
def JsId.toKey : JsId → Nat
  | JsId.str n => n
  | JsId.num n => n

/-- The `ratingsData` object: user id keys (in iteration order) with their
rating vectors. -/
abbrev RatingsTable := List (Nat × List MovieRating)

noncomputable section

/-- lodash `_.meanBy(l, r => r.rating)`: sum divided by length. -/
def meanBy (l : List MovieRating) : ℝ :=
  (l.map (fun r => r.rating)).sum / l.length

/-- Helper for lodash `_.intersectionBy(l1, l2, 'movieId')`: walk `l1` in
order, keep records whose `movieId` occurs in `ids`, dropping repeats of a
`movieId` already kept (lodash returns unique values). -/
def intersectionByAux (ids : List Nat) : List Nat → List MovieRating → List MovieRating
  | _, [] => []
  | seen, r :: rest =>
    if r.movieId ∈ ids ∧ r.movieId ∉ seen then
      r :: intersectionByAux ids (r.movieId :: seen) rest
    else
      intersectionByAux ids seen rest

/-- lodash `_.intersectionBy(l1, l2, 'movieId')`: the records of `l1` (first
array) whose `movieId` also occurs in `l2`, unique by `movieId`. -/
def intersectionByMovieId (l1 l2 : List MovieRating) : List MovieRating :=
  intersectionByAux (l2.map (fun r => r.movieId)) [] l1

/-- `calculateSimilarity(user1Ratings, user2Ratings)` from the source: means
over each full vector, then one pass over the common movies accumulating
`numerator`, `sum1`, `sum2`.  Each common movie is a record of
`user1Ratings` (lodash `intersectionBy` keeps first-array elements), so
`movie.rating` is user 1's rating in all three accumulations. -/
def calculateSimilarity (user1Ratings user2Ratings : List MovieRating) : ℝ :=
  let avg1 := meanBy user1Ratings
  let avg2 := meanBy user2Ratings
  let commonMovies := intersectionByMovieId user1Ratings user2Ratings
  let acc := commonMovies.foldl
    (fun s movie =>
      (s.1 + (movie.rating - avg1) * (movie.rating - avg2),
       s.2.1 + (movie.rating - avg1) ^ 2,
       s.2.2 + (movie.rating - avg2) ^ 2))
    (0, 0, 0)
  if acc.2.1 * acc.2.2 = 0 then 0 else acc.1 / Real.sqrt (acc.2.1 * acc.2.2)

/-- `similarities.sort((a, b) => b.key - a.key)`: stable sort into
non-increasing key order. -/
def jsSortDesc {α : Type} (key : α → ℝ) (l : List α) : List α :=
  List.insertionSort (fun a b => key b ≤ key a) l

/-- `ratingsData[k]` for a numeric-string key: first (only) binding of the
key, or `undefined` (modelled as the empty vector, over which the lodash
helpers behave as they do on `undefined`). -/
def lookupTable (t : RatingsTable) (key : Nat) : List MovieRating :=
  ((t.find? (fun p => p.1 == key)).map (fun p => p.2)).getD []

/-- `findNearestNeighbors(userId, ratingsData, k)` from the source:
for every entry whose (string) key is `!==` the given id, push a
`NeighborRecord` with the similarity of the target's vector to it, then
stable-sort descending by similarity and take the first `k`. -/
def findNearestNeighbors (userId : JsId) (ratingsData : RatingsTable) (k : Nat) :
    List NeighborRecord :=
  let similarities :=
    (ratingsData.filter (fun p => jsKeyStrictNeq p.1 userId)).map
      (fun p =>
        { userId := p.1
          similarity := calculateSimilarity (lookupTable ratingsData userId.toKey) p.2
          ratings := p.2 })
  (jsSortDesc (fun n => n.similarity) similarities).take k

/-- `x.toFixed(1)` (read back as a number): nearest multiple of `1/10`,
ties toward the larger value, exactly `round` of ES `toFixed`. -/
def jsToFixed1 (x : ℝ) : ℝ :=
  (round (x * 10) : ℤ) / 10

/-- `predictRating(movieId, neighbors)` from the source: one pass over the
neighbors accumulating `weightedSum` and `similaritySum` from those that
rated the movie, then the rounded quotient if `similaritySum > 0` and the
constant `1` otherwise. -/
def predictRating (movieId : Nat) (neighbors : List NeighborRecord) : ℝ :=
  let acc := neighbors.foldl
    (fun s neighbor =>
      match neighbor.ratings.find? (fun r => r.movieId == movieId) with
      | some neighborRating =>
        (s.1 + neighborRating.rating * neighbor.similarity, s.2 + neighbor.similarity)
      | none => s)
    (0, 0)
  if 0 < acc.2 then jsToFixed1 (acc.1 / acc.2) else 1

/-- `+_.maxBy(Object.keys(ratingsData), parseInt)`: the largest user id key
(`0` for the empty table, whose behavior the reference leaves undefined). -/
def maxUserId (t : RatingsTable) : Nat :=
  (t.map (fun p => p.1)).foldl max 0

/-- The recommendation pipeline of `main` (and of the `/postUserRatings`
handler) after the new user's ratings are collected: assign
`max key + 1` as the new id, append the new vector (a fresh largest integer
key iterates last), compute neighbors, predict every catalog movie the new
user has not rated, sort descending by predicted rating and keep 10. -/
def recommend (userRatings : List MovieRating) (ratingsData : RatingsTable)
    (movies : List (Nat × ItemMeta)) (k : Nat) : List PredictedMovie :=
  let newUserId := maxUserId ratingsData + 1
  let ratingsData2 := ratingsData ++ [(newUserId, userRatings)]
  let neighbors := findNearestNeighbors (JsId.num newUserId) ratingsData2 k
  let unratedMovies :=
    movies.filter (fun p => !(userRatings.any (fun r => r.movieId == p.1)))
  let predictedMovies := unratedMovies.map
    (fun p =>
      { movieId := p.1
        title := p.2.title
        genres := p.2.genres
        predictedRating := predictRating p.1 neighbors })
  (jsSortDesc (fun m => m.predictedRating) predictedMovies).take 10

/-- The `/postUserRatings` handler of the express variant: an empty body is
answered with the 400 error before anything is registered; otherwise the new
user is stored and the recommendation list returned.  The first component is
the ratings table after the request. -/
def postUserRatings (userRatings : List MovieRating) (ratingsData : RatingsTable)
    (movies : List (Nat × ItemMeta)) (k : Nat) :
    RatingsTable × Except String (List PredictedMovie) :=
  if userRatings.length = 0 then
    (ratingsData, Except.error ("No ratings provided"))
  else
    (ratingsData ++ [(maxUserId ratingsData + 1, userRatings)],
     Except.ok (recommend userRatings ratingsData movies k))

/-- `vectorB`'s own rating for a movie (`0` if absent; used only on common
movies, where it is present). -/
def ratingOf (l : List MovieRating) (movieId : Nat) : ℝ :=
  ((l.find? (fun r => r.movieId == movieId)).map (fun r => r.rating)).getD 0

/-- Follows the spec's wording of §4.1 step 3: for each common item,
`numerator += (ratingA - avgA) * (ratingB - avgB)`,
`sumSqA += (ratingA - avgA)^2`, `sumSqB += (ratingB - avgB)^2`, where
`ratingA` and `ratingB` are respectively user A's and user B's own rating
for that item, with means over each entire vector; then
`numerator / sqrt(sumSqA * sumSqB)` when the denominator is nonzero. -/
def calculateSimilaritySpec (vectorA vectorB : List MovieRating) : ℝ :=
  let avgA := meanBy vectorA
  let avgB := meanBy vectorB
  let common := intersectionByMovieId vectorA vectorB
  let numerator :=
    (common.map (fun m => (m.rating - avgA) * (ratingOf vectorB m.movieId - avgB))).sum
  let sumSqA := (common.map (fun m => (m.rating - avgA) ^ 2)).sum
  let sumSqB := (common.map (fun m => (ratingOf vectorB m.movieId - avgB) ^ 2)).sum
  if sumSqA * sumSqB = 0 then 0 else numerator / Real.sqrt (sumSqA * sumSqB)

/-- The `(rating, similarity)` pairs of the neighbors that rated the movie,
in neighbor order: exactly the contributions `predictRating` accumulates. -/
def contributions (movieId : Nat) (neighbors : List NeighborRecord) : List (ℝ × ℝ) :=
  neighbors.filterMap
    (fun nb =>
      (nb.ratings.find? (fun r => r.movieId == movieId)).map
        (fun r => (r.rating, nb.similarity)))

/-- The `weightedSum` accumulator of `predictRating`, as a sum. -/
def weightedSum (movieId : Nat) (neighbors : List NeighborRecord) : ℝ :=
  ((contributions movieId neighbors).map (fun p => p.1 * p.2)).sum

/-- The `similaritySum` accumulator of `predictRating`, as a sum. -/
def similaritySum (movieId : Nat) (neighbors : List NeighborRecord) : ℝ :=
  ((contributions movieId neighbors).map (fun p => p.2)).sum

/-- The `numerator` accumulator of `calculateSimilarity`, as a sum. -/
def simNumerator (u1 u2 : List MovieRating) : ℝ :=
  ((intersectionByMovieId u1 u2).map
    (fun m => (m.rating - meanBy u1) * (m.rating - meanBy u2))).sum

/-- The `sum1` accumulator of `calculateSimilarity`, as a sum. -/
def simSumSq1 (u1 u2 : List MovieRating) : ℝ :=
  ((intersectionByMovieId u1 u2).map (fun m => (m.rating - meanBy u1) ^ 2)).sum

/-- The `sum2` accumulator of `calculateSimilarity`, as a sum. -/
def simSumSq2 (u1 u2 : List MovieRating) : ℝ :=
  ((intersectionByMovieId u1 u2).map (fun m => (m.rating - meanBy u2) ^ 2)).sum

/-! ### The end-to-end test scenario of the spec (§8)

Corpus users `1:[(10,5),(20,3)]`, `2:[(10,5),(20,3),(30,4)]`,
`3:[(10,1),(20,1)]`; the new user rates `[(10,5),(20,3)]` and is
registered by `main` under id `max + 1 = 4`, appended last. -/

def demoV1 : List MovieRating := [⟨10, 5⟩, ⟨20, 3⟩]

def demoV2 : List MovieRating := [⟨10, 5⟩, ⟨20, 3⟩, ⟨30, 4⟩]

def demoV3 : List MovieRating := [⟨10, 1⟩, ⟨20, 1⟩]

def demoV4 : List MovieRating := [⟨10, 5⟩, ⟨20, 3⟩]

def demoTable : RatingsTable := [(1, demoV1), (2, demoV2), (3, demoV3), (4, demoV4)]

/-! ### The imperative accumulations as sums -/

lemma foldl_sim_eq (avg1 avg2 : ℝ) :
    ∀ (l : List MovieRating) (a b c : ℝ),
      l.foldl
        (fun s movie =>
          (s.1 + (movie.rating - avg1) * (movie.rating - avg2),
           s.2.1 + (movie.rating - avg1) ^ 2,
           s.2.2 + (movie.rating - avg2) ^ 2))
        (a, b, c)
      = (a + (l.map (fun m => (m.rating - avg1) * (m.rating - avg2))).sum,
         b + (l.map (fun m => (m.rating - avg1) ^ 2)).sum,
         c + (l.map (fun m => (m.rating - avg2) ^ 2)).sum) := by
  intro l
  induction l with
  | nil => intro a b c; simp
  | cons m t ih =>
    intro a b c
    simp only [List.foldl_cons, List.map_cons, List.sum_cons, ih]
    refine Prod.ext (by ring) (Prod.ext (by ring) (by ring))

/-- `calculateSimilarity` written with its accumulators as explicit sums. -/
lemma calculateSimilarity_eq (u1 u2 : List MovieRating) :
    calculateSimilarity u1 u2 =
      if simSumSq1 u1 u2 * simSumSq2 u1 u2 = 0 then 0
      else simNumerator u1 u2 / Real.sqrt (simSumSq1 u1 u2 * simSumSq2 u1 u2) := by
  unfold calculateSimilarity simNumerator simSumSq1 simSumSq2
  simp only [foldl_sim_eq, zero_add]

lemma foldl_predict_eq (movieId : Nat) :
    ∀ (l : List NeighborRecord) (a b : ℝ),
      l.foldl
        (fun s neighbor =>
          match neighbor.ratings.find? (fun r => r.movieId == movieId) with
          | some neighborRating =>
            (s.1 + neighborRating.rating * neighbor.similarity, s.2 + neighbor.similarity)
          | none => s)
        (a, b)
      = (a + ((contributions movieId l).map (fun p => p.1 * p.2)).sum,
         b + ((contributions movieId l).map (fun p => p.2)).sum) := by
  intro l
  induction l with
  | nil => intro a b; simp [contributions]
  | cons n t ih =>
    intro a b
    cases h : n.ratings.find? (fun r => r.movieId == movieId) with
    | none =>
      simp only [List.foldl_cons, h, ih, contributions, List.filterMap_cons, Option.map_none']
    | some r =>
      simp only [List.foldl_cons, h, ih, contributions, List.filterMap_cons, Option.map_some',
        List.map_cons, List.sum_cons]
      refine Prod.ext (by ring) (by ring)

/-- `predictRating` written with its accumulators as explicit sums. -/
lemma predictRating_eq (movieId : Nat) (neighbors : List NeighborRecord) :
    predictRating movieId neighbors =
      if 0 < similaritySum movieId neighbors then
        jsToFixed1 (weightedSum movieId neighbors / similaritySum movieId neighbors)
      else 1 := by
  unfold predictRating weightedSum similaritySum
  simp only [foldl_predict_eq, zero_add]

/-! ### Arithmetic helper lemmas -/

lemma sum_map_sq_nonneg {α : Type} (l : List α) (f : α → ℝ) :
    0 ≤ (l.map (fun x => f x ^ 2)).sum := by
  refine List.sum_nonneg ?_
  intro x hx
  obtain ⟨a, _, rfl⟩ := List.mem_map.mp hx
  positivity

/-- The inductive step of Cauchy-Schwarz: adding one coordinate pair. -/
lemma cauchy_schwarz_step (A B P S1 S2 : ℝ) (hP : P ^ 2 ≤ S1 * S2)
    (h1 : 0 ≤ S1) (h2 : 0 ≤ S2) :
    (A * B + P) ^ 2 ≤ (A ^ 2 + S1) * (B ^ 2 + S2) := by
  rcases eq_or_lt_of_le h2 with h2e | h2p
  · have hP0 : P ^ 2 ≤ 0 := by
      have := hP
      rw [← h2e, mul_zero] at this
      exact this
    have hP1 : P = 0 := by
      have := le_antisymm hP0 (sq_nonneg P)
      exact pow_eq_zero_iff (n := 2) (by norm_num) |>.mp this
    subst hP1
    rw [← h2e]
    nlinarith [mul_nonneg h1 (sq_nonneg B)]
  · have key : S2 * ((A ^ 2 + S1) * (B ^ 2 + S2) - (A * B + P) ^ 2)
        = (A * S2 - B * P) ^ 2 + B ^ 2 * (S1 * S2 - P ^ 2)
          + S2 * (S1 * S2 - P ^ 2) := by
      ring
    have hnn : 0 ≤ S2 * ((A ^ 2 + S1) * (B ^ 2 + S2) - (A * B + P) ^ 2) := by
      rw [key]
      have t1 := sq_nonneg (A * S2 - B * P)
      have t2 := mul_nonneg (sq_nonneg B) (sub_nonneg.mpr hP)
      have t3 := mul_nonneg h2 (sub_nonneg.mpr hP)
      linarith
    have hd : 0 ≤ (A ^ 2 + S1) * (B ^ 2 + S2) - (A * B + P) ^ 2 :=
      nonneg_of_mul_nonneg_right (by linarith [hnn]) h2p
    linarith

/-- Cauchy-Schwarz for two functions summed over one list. -/
lemma list_cauchy_schwarz {α : Type} (l : List α) (f g : α → ℝ) :
    ((l.map (fun x => f x * g x)).sum) ^ 2 ≤
      ((l.map (fun x => f x ^ 2)).sum) * ((l.map (fun x => g x ^ 2)).sum) := by
  induction l with
  | nil => simp
  | cons a t ih =>
    have h1 := sum_map_sq_nonneg t f
    have h2 := sum_map_sq_nonneg t g
    simp only [List.map_cons, List.sum_cons]
    exact cauchy_schwarz_step (f a) (g a) _ _ _ ih h1 h2

/-! ### Sorting lemmas -/

lemma jsSortDesc_perm {α : Type} (key : α → ℝ) (l : List α) :
    List.Perm (jsSortDesc key l) l :=
  List.perm_insertionSort _ l

lemma jsSortDesc_sorted {α : Type} (key : α → ℝ) (l : List α) :
    (jsSortDesc key l).Pairwise (fun a b => key b ≤ key a) := by
  haveI : IsTotal α (fun a b => key b ≤ key a) :=
    ⟨fun a b => le_total (key b) (key a)⟩
  haveI : IsTrans α (fun a b => key b ≤ key a) :=
    ⟨fun a b c hab hbc => le_trans hbc hab⟩
  exact List.sorted_insertionSort _ l

lemma sim_cauchy_schwarz (u1 u2 : List MovieRating) :
    simNumerator u1 u2 ^ 2 ≤ simSumSq1 u1 u2 * simSumSq2 u1 u2 :=
  list_cauchy_schwarz (intersectionByMovieId u1 u2)
    (fun m => m.rating - meanBy u1) (fun m => m.rating - meanBy u2)

/-- Rounding to one decimal moves a value by at most `1/20`. -/
lemma jsToFixed1_err (x : ℝ) : |jsToFixed1 x - x| ≤ 1 / 20 := by
  unfold jsToFixed1
  have h := abs_sub_round (x * 10)
  rw [abs_sub_comm] at h
  have heq : (round (x * 10) : ℝ) / 10 - x = ((round (x * 10) : ℝ) - x * 10) / 10 := by
    ring
  rw [heq, abs_div, abs_of_pos (by norm_num : (0:ℝ) < 10)]
  linarith

/-- `intersectionByAux` only looks at which ids occur in `ids`. -/
lemma intersectionByAux_congr (ids ids2 : List Nat)
    (h : ∀ i, i ∈ ids ↔ i ∈ ids2) :
    ∀ (l : List MovieRating) (seen : List Nat),
      intersectionByAux ids seen l = intersectionByAux ids2 seen l := by
  intro l
  induction l with
  | nil => intro seen; rfl
  | cons r rest ih =>
    intro seen
    simp only [intersectionByAux, h]
    split_ifs with hc
    · rw [ih]
    · rw [ih]

/-- **C4.** For every pair of non-empty rating vectors, the value returned by
`calculateSimilarity` lies in the closed interval `[-1, 1]`. -/
theorem calculateSimilarity_bounded (vectorA vectorB : List MovieRating)
    (hA : vectorA ≠ []) (hB : vectorB ≠ []) :
    -1 ≤ calculateSimilarity vectorA vectorB ∧ calculateSimilarity vectorA vectorB ≤ 1 := by
  rw [calculateSimilarity_eq]
  by_cases h : simSumSq1 vectorA vectorB * simSumSq2 vectorA vectorB = 0
  · rw [if_pos h]
    norm_num
  · rw [if_neg h]
    have h1 : 0 ≤ simSumSq1 vectorA vectorB := sum_map_sq_nonneg _ _
    have h2 : 0 ≤ simSumSq2 vectorA vectorB := sum_map_sq_nonneg _ _
    have hprod : 0 < simSumSq1 vectorA vectorB * simSumSq2 vectorA vectorB :=
      lt_of_le_of_ne (mul_nonneg h1 h2) (Ne.symm h)
    have habs : |simNumerator vectorA vectorB| ≤
        Real.sqrt (simSumSq1 vectorA vectorB * simSumSq2 vectorA vectorB) :=
      Real.abs_le_sqrt (sim_cauchy_schwarz vectorA vectorB)
    have hsq : 0 < Real.sqrt (simSumSq1 vectorA vectorB * simSumSq2 vectorA vectorB) :=
      Real.sqrt_pos.mpr hprod
    have hpair := abs_le.mp habs
    constructor
    · rw [le_div_iff₀ hsq]
      linarith [hpair.1]
    · rw [div_le_one hsq]
      linarith [hpair.2]

/-- **C4 witness.** The bound instantiated at a concrete pair of non-empty
vectors. -/
theorem calculateSimilarity_bounded_witness :
    -1 ≤ calculateSimilarity [⟨1, 3⟩, ⟨2, 5⟩] [⟨1, 4⟩] ∧
      calculateSimilarity [⟨1, 3⟩, ⟨2, 5⟩] [⟨1, 4⟩] ≤ 1 :=
  calculateSimilarity_bounded [⟨1, 3⟩, ⟨2, 5⟩] [⟨1, 4⟩] (by simp) (by simp)

/-- **C5.** `predictRating` returns `weightedSum / similaritySum` rounded to
one decimal place when the sum of the contributing neighbors' similarities is
strictly positive, and the fallback constant `1` otherwise — in particular
when no neighbor rated the item (empty contribution list) or the contributing
similarities sum to zero or below. -/
theorem predictRating_formula (movieId : Nat) (neighbors : List NeighborRecord) :
    (0 < similaritySum movieId neighbors →
      predictRating movieId neighbors =
        jsToFixed1 (weightedSum movieId neighbors / similaritySum movieId neighbors)) ∧
    (similaritySum movieId neighbors ≤ 0 → predictRating movieId neighbors = 1) ∧
    (contributions movieId neighbors = [] → predictRating movieId neighbors = 1) := by
  refine ⟨fun h => ?_, fun h => ?_, fun h => ?_⟩
  · rw [predictRating_eq, if_pos h]
  · rw [predictRating_eq, if_neg (not_lt.mpr h)]
  · have h0 : similaritySum movieId neighbors = 0 := by
      rw [similaritySum, h]
      simp
    rw [predictRating_eq, if_neg (by rw [h0]; exact lt_irrefl 0)]

/-- **C5 witness.** The formula instantiated: one neighbor with similarity `1`
rated movie `30`, so the rounded weighted mean is returned; nobody rated
movie `99`, so the fallback `1` is returned. -/
theorem predictRating_formula_witness :
    predictRating 30 [⟨2, 1, [⟨30, 4⟩]⟩] =
      jsToFixed1 (weightedSum 30 [⟨2, 1, [⟨30, 4⟩]⟩] /
        similaritySum 30 [⟨2, 1, [⟨30, 4⟩]⟩]) ∧
    predictRating 99 [⟨2, 1, [⟨30, 4⟩]⟩] = 1 :=
  ⟨(predictRating_formula 30 [⟨2, 1, [⟨30, 4⟩]⟩]).1 (by
      have hc : contributions 30 [⟨2, 1, [⟨30, 4⟩]⟩] = [(4, 1)] := rfl
      norm_num [similaritySum, hc]),
   (predictRating_formula 99 [⟨2, 1, [⟨30, 4⟩]⟩]).2.2 rfl⟩

/-- **C6 (amended).** When at least one neighbor rated the item and every
contributing similarity is strictly positive, the returned value lies within
the contributing ratings' range widened by the one-decimal rounding error:
`[min - 1/20, max + 1/20]`. -/
theorem predictRating_within_rounded_bounds (movieId : Nat)
    (neighbors : List NeighborRecord) (m M : ℝ)
    (hne : contributions movieId neighbors ≠ [])
    (hpos : ∀ p ∈ contributions movieId neighbors, 0 < p.2)
    (hm : ∀ p ∈ contributions movieId neighbors, m ≤ p.1)
    (hM : ∀ p ∈ contributions movieId neighbors, p.1 ≤ M) :
    m - 1 / 20 ≤ predictRating movieId neighbors ∧
      predictRating movieId neighbors ≤ M + 1 / 20 := by
  have hss : 0 < similaritySum movieId neighbors := by
    unfold similaritySum
    refine List.sum_pos _ ?_ ?_
    · intro x hx
      obtain ⟨p, hp, rfl⟩ := List.mem_map.mp hx
      exact hpos p hp
    · rw [Ne, List.map_eq_nil_iff]
      exact hne
  have hlow : m * similaritySum movieId neighbors ≤ weightedSum movieId neighbors := by
    unfold similaritySum weightedSum
    rw [← List.sum_map_mul_left]
    refine List.sum_le_sum ?_
    intro p hp
    exact mul_le_mul_of_nonneg_right (hm p hp) (le_of_lt (hpos p hp))
  have hhigh : weightedSum movieId neighbors ≤ M * similaritySum movieId neighbors := by
    unfold similaritySum weightedSum
    rw [← List.sum_map_mul_left]
    refine List.sum_le_sum ?_
    intro p hp
    exact mul_le_mul_of_nonneg_right (hM p hp) (le_of_lt (hpos p hp))
  have hq := predictRating_eq movieId neighbors
  rw [if_pos hss] at hq
  have hqlow : m ≤ weightedSum movieId neighbors / similaritySum movieId neighbors :=
    (le_div_iff₀ hss).mpr hlow
  have hqhigh : weightedSum movieId neighbors / similaritySum movieId neighbors ≤ M := by
    rw [div_le_iff₀ hss]
    linarith [hhigh]
  have hpair := abs_le.mp
    (jsToFixed1_err (weightedSum movieId neighbors / similaritySum movieId neighbors))
  rw [hq]
  constructor
  · linarith [hpair.1]
  · linarith [hpair.2]

/-- **C6 witness.** The amended bound instantiated: one neighbor with
similarity `2` rated movie `30` with `3`, so the prediction stays within
`[3 - 1/20, 3 + 1/20]`. -/
theorem predictRating_within_rounded_bounds_witness :
    (3:ℝ) - 1 / 20 ≤ predictRating 30 [⟨7, 2, [⟨30, 3⟩]⟩] ∧
      predictRating 30 [⟨7, 2, [⟨30, 3⟩]⟩] ≤ 3 + 1 / 20 :=
  predictRating_within_rounded_bounds 30 [⟨7, 2, [⟨30, 3⟩]⟩] 3 3
    (by
      have hc : contributions 30 [⟨7, 2, [⟨30, 3⟩]⟩] = [(3, 2)] := rfl
      rw [hc]
      simp)
    (by
      have hc : contributions 30 [⟨7, 2, [⟨30, 3⟩]⟩] = [(3, 2)] := rfl
      rw [hc]
      intro p hp
      rw [List.mem_singleton] at hp
      rw [hp]
      norm_num)
    (by
      have hc : contributions 30 [⟨7, 2, [⟨30, 3⟩]⟩] = [(3, 2)] := rfl
      rw [hc]
      intro p hp
      rw [List.mem_singleton] at hp
      rw [hp])
    (by
      have hc : contributions 30 [⟨7, 2, [⟨30, 3⟩]⟩] = [(3, 2)] := rfl
      rw [hc]
      intro p hp
      rw [List.mem_singleton] at hp
      rw [hp])

/-- **C10.** The similarity value does not depend on user 2's individual
ratings: two second vectors with the same set of movie ids and the same mean
produce the same similarity against any first vector, because the
accumulation loop reads only `movie.rating` of the first vector's records. -/
theorem calculateSimilarity_ignores_user2_ratings
    (vectorA vectorB vectorB2 : List MovieRating)
    (hids : ∀ i : Nat, i ∈ vectorB.map (fun r => r.movieId) ↔
      i ∈ vectorB2.map (fun r => r.movieId))
    (hmean : meanBy vectorB = meanBy vectorB2) :
    calculateSimilarity vectorA vectorB = calculateSimilarity vectorA vectorB2 := by
  have hint : intersectionByMovieId vectorA vectorB = intersectionByMovieId vectorA vectorB2 := by
    unfold intersectionByMovieId
    exact intersectionByAux_congr _ _ hids vectorA []
  rw [calculateSimilarity_eq, calculateSimilarity_eq]
  unfold simNumerator simSumSq1 simSumSq2
  rw [hint, hmean]

/-- **C10 witness.** Replacing `[(1,5),(2,1)]` by `[(2,3),(1,3)]` (same id
set `{1,2}`, same mean `3`) leaves the similarity against `[(1,4)]`
unchanged. -/
theorem calculateSimilarity_ignores_user2_ratings_witness :
    calculateSimilarity [⟨1, 4⟩] [⟨1, 5⟩, ⟨2, 1⟩] =
      calculateSimilarity [⟨1, 4⟩] [⟨2, 3⟩, ⟨1, 3⟩] :=
  calculateSimilarity_ignores_user2_ratings [⟨1, 4⟩] [⟨1, 5⟩, ⟨2, 1⟩] [⟨2, 3⟩, ⟨1, 3⟩]
    (by
      intro i
      simp only [List.map_cons, List.map_nil, List.mem_cons, List.not_mem_nil, or_false]
      tauto)
    (by norm_num [meanBy])

/-- **C7.** The recommendation list never contains an item the new user
already rated, has length at most 10, and is sorted non-increasing by
`predictedRating`. -/
theorem recommend_output_contract (userRatings : List MovieRating)
    (ratingsData : RatingsTable) (movies : List (Nat × ItemMeta)) (k : Nat) :
    (∀ p ∈ recommend userRatings ratingsData movies k,
        ∀ r ∈ userRatings, r.movieId ≠ p.movieId) ∧
    (recommend userRatings ratingsData movies k).length ≤ 10 ∧
    (recommend userRatings ratingsData movies k).Pairwise
      (fun a b => b.predictedRating ≤ a.predictedRating) := by
  refine ⟨?_, ?_, ?_⟩
  · intro p hp r hr
    simp only [recommend] at hp
    have hp2 := List.take_subset _ _ hp
    have hp3 := (jsSortDesc_perm _ _).mem_iff.mp hp2
    obtain ⟨q, hq, rfl⟩ := List.mem_map.mp hp3
    have hq2 := (List.mem_filter.mp hq).2
    simp only [Bool.not_eq_true', List.any_eq_false, beq_iff_eq] at hq2
    simpa using hq2 r hr
  · simp only [recommend]
    exact List.length_take_le _ _
  · simp only [recommend]
    exact (jsSortDesc_sorted _ _).sublist (List.take_sublist _ _)

/-- **C7 witness.** The contract instantiated at a concrete input. -/
theorem recommend_output_contract_witness :
    (recommend [⟨1, 3⟩] [(1, [⟨2, 4⟩])] [(1, ⟨"a", "b"⟩), (2, ⟨"c", "d"⟩)] 2).length ≤ 10 ∧
    (recommend [⟨1, 3⟩] [(1, [⟨2, 4⟩])] [(1, ⟨"a", "b"⟩), (2, ⟨"c", "d"⟩)] 2).Pairwise
      (fun a b => b.predictedRating ≤ a.predictedRating) :=
  ⟨(recommend_output_contract [⟨1, 3⟩] [(1, [⟨2, 4⟩])]
      [(1, ⟨"a", "b"⟩), (2, ⟨"c", "d"⟩)] 2).2.1,
   (recommend_output_contract [⟨1, 3⟩] [(1, [⟨2, 4⟩])]
      [(1, ⟨"a", "b"⟩), (2, ⟨"c", "d"⟩)] 2).2.2⟩

/-- **C9.** An empty new-user rating list is rejected with the
`"No ratings provided"` error before the user is registered, and whenever the
handler rejects, the ratings table is left unchanged. -/
theorem postUserRatings_empty_rejection (userRatings : List MovieRating)
    (ratingsData : RatingsTable) (movies : List (Nat × ItemMeta)) (k : Nat) :
    (userRatings = [] →
      postUserRatings userRatings ratingsData movies k
        = (ratingsData, Except.error ("No ratings provided"))) ∧
    (∀ e, (postUserRatings userRatings ratingsData movies k).2 = Except.error e →
        (postUserRatings userRatings ratingsData movies k).1 = ratingsData) := by
  constructor
  · intro h
    subst h
    rfl
  · intro e he
    by_cases h : userRatings.length = 0
    · simp only [postUserRatings, if_pos h]
    · simp only [postUserRatings, if_neg h] at he
      exact Except.noConfusion he

/-- **C9 witness.** The rejection instantiated: an empty rating list against a
one-user table produces the error and leaves the table unchanged. -/
theorem postUserRatings_empty_rejection_witness :
    postUserRatings [] [(1, [⟨1, 3⟩])] [] 2
      = ([(1, [⟨1, 3⟩])], Except.error ("No ratings provided")) ∧
    (postUserRatings [] [(1, [⟨1, 3⟩])] [] 2).1 = [(1, [⟨1, 3⟩])] :=
  ⟨(postUserRatings_empty_rejection [] [(1, [⟨1, 3⟩])] [] 2).1 rfl,
   (postUserRatings_empty_rejection [] [(1, [⟨1, 3⟩])] [] 2).2
     ("No ratings provided") rfl⟩

/-! ### Evaluation of the scenario of §8 -/

lemma demo_sim1 : calculateSimilarity demoV4 demoV1 = 1 := by
  rw [calculateSimilarity_eq]
  have h1 : simSumSq1 demoV4 demoV1 = 2 := by
    norm_num [simSumSq1, intersectionByMovieId, intersectionByAux, meanBy, demoV4, demoV1]
  have h2 : simSumSq2 demoV4 demoV1 = 2 := by
    norm_num [simSumSq2, intersectionByMovieId, intersectionByAux, meanBy, demoV4, demoV1]
  have h3 : simNumerator demoV4 demoV1 = 2 := by
    norm_num [simNumerator, intersectionByMovieId, intersectionByAux, meanBy, demoV4, demoV1]
  rw [h1, h2, h3, if_neg (by norm_num)]
  rw [show (2 : ℝ) * 2 = 2 ^ 2 by norm_num, Real.sqrt_sq (by norm_num)]
  norm_num

lemma demo_sim2 : calculateSimilarity demoV4 demoV2 = 1 := by
  rw [calculateSimilarity_eq]
  have h1 : simSumSq1 demoV4 demoV2 = 2 := by
    norm_num [simSumSq1, intersectionByMovieId, intersectionByAux, meanBy, demoV4, demoV2]
  have h2 : simSumSq2 demoV4 demoV2 = 2 := by
    norm_num [simSumSq2, intersectionByMovieId, intersectionByAux, meanBy, demoV4, demoV2]
  have h3 : simNumerator demoV4 demoV2 = 2 := by
    norm_num [simNumerator, intersectionByMovieId, intersectionByAux, meanBy, demoV4, demoV2]
  rw [h1, h2, h3, if_neg (by norm_num)]
  rw [show (2 : ℝ) * 2 = 2 ^ 2 by norm_num, Real.sqrt_sq (by norm_num)]
  norm_num

lemma demo_sim3 : calculateSimilarity demoV4 demoV3 = 2 / Real.sqrt 40 := by
  rw [calculateSimilarity_eq]
  have h1 : simSumSq1 demoV4 demoV3 = 2 := by
    norm_num [simSumSq1, intersectionByMovieId, intersectionByAux, meanBy, demoV4, demoV3]
  have h2 : simSumSq2 demoV4 demoV3 = 20 := by
    norm_num [simSumSq2, intersectionByMovieId, intersectionByAux, meanBy, demoV4, demoV3]
  have h3 : simNumerator demoV4 demoV3 = 2 := by
    norm_num [simNumerator, intersectionByMovieId, intersectionByAux, meanBy, demoV4, demoV3]
  rw [h1, h2, h3, if_neg (by norm_num)]
  norm_num

lemma demo_sim4 : calculateSimilarity demoV4 demoV4 = 1 := by
  rw [calculateSimilarity_eq]
  have h1 : simSumSq1 demoV4 demoV4 = 2 := by
    norm_num [simSumSq1, intersectionByMovieId, intersectionByAux, meanBy, demoV4]
  have h2 : simSumSq2 demoV4 demoV4 = 2 := by
    norm_num [simSumSq2, intersectionByMovieId, intersectionByAux, meanBy, demoV4]
  have h3 : simNumerator demoV4 demoV4 = 2 := by
    norm_num [simNumerator, intersectionByMovieId, intersectionByAux, meanBy, demoV4]
  rw [h1, h2, h3, if_neg (by norm_num)]
  rw [show (2 : ℝ) * 2 = 2 ^ 2 by norm_num, Real.sqrt_sq (by norm_num)]
  norm_num

lemma demo_lookup : lookupTable demoTable 4 = demoV4 := rfl

lemma demo_sqrt40_lt : ¬ ((1:ℝ) ≤ 2 / Real.sqrt 40) := by
  rw [not_le]
  have hpos : 0 < Real.sqrt 40 := Real.sqrt_pos.mpr (by norm_num)
  rw [div_lt_one hpos]
  have h2 : (2:ℝ) = Real.sqrt 4 := by
    rw [show (4:ℝ) = 2 ^ 2 by norm_num, Real.sqrt_sq (by norm_num)]
  rw [h2]
  exact Real.sqrt_lt_sqrt (by norm_num) (by norm_num)

/-- In the scenario, neighbor selection for the registered new user `4` with
`k = 2`: users 1, 2 and 4 itself all tie at similarity `1` (user 3 scores
`2/√40 < 1`), the stable sort keeps iteration order `1, 2, 4, 3`, and the
first two records are users 1 and 2. -/
lemma demo_neighbors : findNearestNeighbors (JsId.num 4) demoTable 2
    = [⟨1, 1, demoV1⟩, ⟨2, 1, demoV2⟩] := by
  unfold findNearestNeighbors
  rw [show (JsId.num 4).toKey = 4 from rfl, demo_lookup]
  simp only [demoTable, List.filter, jsKeyStrictNeq, List.map,
    demo_sim1, demo_sim2, demo_sim3, demo_sim4, jsSortDesc, List.insertionSort,
    List.orderedInsert]
  norm_num [demo_sqrt40_lt]

/-- **C1.** The accumulation loop of `calculateSimilarity` deviates from the
claimed formula: every common movie is a record of user 1's vector, so
`movie.rating` stands in for both `ratingA` and `ratingB`.  For
`A = [(1,4),(2,2)]`, `B = [(1,2),(3,4)]` (both means `3`, common item `1`),
the code returns `(4-3)(4-3)/√(1·1) = 1` while the claimed formula gives
`(4-3)(2-3)/√(1·1) = -1`. -/
theorem calculateSimilarity_deviates_from_spec_formula :
    calculateSimilarity [⟨1, 4⟩, ⟨2, 2⟩] [⟨1, 2⟩, ⟨3, 4⟩] = 1 ∧
    calculateSimilaritySpec [⟨1, 4⟩, ⟨2, 2⟩] [⟨1, 2⟩, ⟨3, 4⟩] = -1 := by
  constructor
  · rw [calculateSimilarity_eq]
    norm_num [simSumSq1, simSumSq2, simNumerator, intersectionByMovieId,
      intersectionByAux, meanBy]
  · unfold calculateSimilaritySpec
    norm_num [intersectionByMovieId, intersectionByAux, meanBy, ratingOf, List.find?]

/-- **C2.** Called the way `main` calls it — with a *numeric* target id —
`findNearestNeighbors` never skips anybody, because the strict inequality
`user2Id !== userId` compares a string key with a number and is always true:
for the one-user table `{1: [(1,2)]}`, target `1`, `k = 1`, the output is the
target's own record (self-similarity `0` here since the single common movie
has zero deviation from the mean). -/
theorem findNearestNeighbors_returns_target_record :
    findNearestNeighbors (JsId.num 1) [(1, [⟨1, 2⟩])] 1
      = [⟨1, 0, [⟨1, 2⟩]⟩] := by
  unfold findNearestNeighbors
  norm_num [jsKeyStrictNeq, JsId.toKey, lookupTable, List.find?, jsSortDesc,
    calculateSimilarity_eq, simSumSq1, simSumSq2, simNumerator,
    intersectionByMovieId, intersectionByAux, meanBy]

/-- **C3.** `calculateSimilarity` is not symmetric: for
`A = [(1,4),(2,2)]` (mean 3) and `B = [(1,2),(3,1)]` (mean 3/2), the code
gives `similarity(A,B) = 1` but `similarity(B,A) = -1`, because each
direction measures only the first argument's ratings on the common movie. -/
theorem calculateSimilarity_not_symmetric :
    calculateSimilarity [⟨1, 4⟩, ⟨2, 2⟩] [⟨1, 2⟩, ⟨3, 1⟩] = 1 ∧
    calculateSimilarity [⟨1, 2⟩, ⟨3, 1⟩] [⟨1, 4⟩, ⟨2, 2⟩] = -1 := by
  constructor
  · rw [calculateSimilarity_eq]
    have h1 : simSumSq1 [⟨1, 4⟩, ⟨2, 2⟩] [⟨1, 2⟩, ⟨3, 1⟩] = 1 := by
      norm_num [simSumSq1, intersectionByMovieId, intersectionByAux, meanBy]
    have h2 : simSumSq2 [⟨1, 4⟩, ⟨2, 2⟩] [⟨1, 2⟩, ⟨3, 1⟩] = 25/4 := by
      norm_num [simSumSq2, intersectionByMovieId, intersectionByAux, meanBy]
    have h3 : simNumerator [⟨1, 4⟩, ⟨2, 2⟩] [⟨1, 2⟩, ⟨3, 1⟩] = 5/2 := by
      norm_num [simNumerator, intersectionByMovieId, intersectionByAux, meanBy]
    rw [h1, h2, h3, if_neg (by norm_num)]
    rw [show (1 : ℝ) * (25/4) = (5/2) ^ 2 by norm_num, Real.sqrt_sq (by norm_num)]
    norm_num
  · rw [calculateSimilarity_eq]
    have h1 : simSumSq1 [⟨1, 2⟩, ⟨3, 1⟩] [⟨1, 4⟩, ⟨2, 2⟩] = 1/4 := by
      norm_num [simSumSq1, intersectionByMovieId, intersectionByAux, meanBy]
    have h2 : simSumSq2 [⟨1, 2⟩, ⟨3, 1⟩] [⟨1, 4⟩, ⟨2, 2⟩] = 1 := by
      norm_num [simSumSq2, intersectionByMovieId, intersectionByAux, meanBy]
    have h3 : simNumerator [⟨1, 2⟩, ⟨3, 1⟩] [⟨1, 4⟩, ⟨2, 2⟩] = -(1/2) := by
      norm_num [simNumerator, intersectionByMovieId, intersectionByAux, meanBy]
    rw [h1, h2, h3, if_neg (by norm_num)]
    rw [show (1 : ℝ)/4 * 1 = (1/2) ^ 2 by norm_num, Real.sqrt_sq (by norm_num)]
    norm_num

/-- **C6 counterexample.** A single contributing neighbor with similarity `1`
rated movie `30` with `4.26`; the contributing range is the point
`[4.26, 4.26]`, but the returned value is the rounded `4.3`, outside it. -/
theorem predictRating_rounding_outside_neighbor_range :
    predictRating 30 [⟨2, 1, [⟨30, 213/50⟩]⟩] = 43/10 ∧
    contributions 30 [⟨2, 1, [⟨30, 213/50⟩]⟩] = [(213/50, 1)] ∧
    ¬ ((43:ℝ)/10 ≤ 213/50) := by
  refine ⟨?_, rfl, by norm_num⟩
  rw [predictRating_eq]
  have hc : contributions 30 [⟨2, 1, [⟨30, 213/50⟩]⟩] = [(213/50, 1)] := rfl
  rw [if_pos (by norm_num [similaritySum, hc])]
  norm_num [weightedSum, similaritySum, hc, jsToFixed1, round_eq, Int.floor_eq_iff]

/-- **C8 counterexample.** In the spec's end-to-end scenario the top neighbor
returned for the new user is user **1**, not user 2: users 1 and 2 tie at
similarity `1` and the stable sort keeps user 1 (earlier iteration order)
first. -/
theorem demo_scenario_top_neighbor_is_user1 :
    ((findNearestNeighbors (JsId.num 4) demoTable 2).map (fun n => n.userId)).head?
        = some 1 ∧
    ¬ (((findNearestNeighbors (JsId.num 4) demoTable 2).map (fun n => n.userId)).head?
        = some 2) := by
  rw [demo_neighbors]
  norm_num

/-- **C8 (amended).** In the scenario, the two neighbors returned are users
`1` and `2` in that order, both with similarity `1` (user 2 ties for maximal
similarity but ranks second), and the predicted rating for item `30` is
`4.0`, contributed solely by user 2. -/
theorem demo_scenario_amended :
    (findNearestNeighbors (JsId.num 4) demoTable 2).map (fun n => n.userId) = [1, 2] ∧
    (findNearestNeighbors (JsId.num 4) demoTable 2).map (fun n => n.similarity) = [1, 1] ∧
    predictRating 30 (findNearestNeighbors (JsId.num 4) demoTable 2) = 4 := by
  rw [demo_neighbors]
  refine ⟨rfl, rfl, ?_⟩
  rw [predictRating_eq]
  have hc : contributions 30 [⟨1, 1, demoV1⟩, ⟨2, 1, demoV2⟩] = [(4, 1)] := rfl
  rw [if_pos (by norm_num [similaritySum, hc])]
  norm_num [weightedSum, similaritySum, hc, jsToFixed1, round_eq, Int.floor_eq_iff]

end

end MovieRec
